import Mathlib

/-!
Formal model of the codex-py conversational client: the streaming agent
loop (src/agent/agent_loop.py), the configuration resolver
(src/utils/config.py, src/utils/default_providers.py) and the provider
client factory (src/utils/openai_client_factory.py), together with
theorems about transcript maintenance, message-history assembly,
cancellation, error formatting, configuration precedence and client
construction.
-/

namespace Codex

/-- Truthiness of an optional Python string: None and the empty string are
falsy, every other string is truthy. -/
def pyTruthy : Option String → Bool
  | none => false
  | some s => !s.isEmpty

/-- A conversation transcript entry, modelling the role/content dicts that
AgentLoopPy appends to self.transcript. -/
structure TranscriptEntry where
  role : String
  content : String
deriving Repr, DecidableEq

/-- One streamed chunk: the list of choices, each holding the optional
delta content string (models chunk.choices with chunk.choices[i].delta.content). -/
structure StreamChunk where
  choices : List (Option String)
deriving Repr, DecidableEq

/-- Classification tag for the exception types exported by the openai
package (subclasses of openai.APIError). -/
inductive ApiErrorKind where
  | rateLimit
  | authentication
  | notFound
  | connection
  | status (code : Nat)
  | generic
deriving Repr, DecidableEq

/-- An exception observed by AgentLoopPy.run: either an openai.APIError of
some kind, or any other exception. The msg field is the str() of the
exception. -/
inductive PyError where
  | apiError (kind : ApiErrorKind) (msg : String)
  | other (msg : String)
deriving Repr, DecidableEq

/-- Error formatting in AgentLoopPy.run (agent_loop.py lines 83-96): an
openai.APIError of any kind is rendered via one fixed template, every
other exception via a second fixed template. The kind of the APIError
plays no role in the rendered text. -/
def formatErrorMessage : PyError → String
  | .apiError _ msg => "OpenAI API Error: " ++ msg
  | .other msg => "An unexpected error occurred: " ++ msg

/-- Mutable state of one AgentLoopPy instance: the transcript, the sticky
cancellation flag, and the in-flight stream reference. -/
structure LoopState where
  transcript : List TranscriptEntry
  canceled : Bool
  currentStream : Option Nat
deriving Repr, DecidableEq

/-- State of a freshly constructed AgentLoopPy: empty transcript, flag
down, no in-flight stream. -/
def loopInit : LoopState := LoopState.mk [] false none

/-- Environment of one call to run, describing what the provider client
does on this turn: an exception raised directly by the create call, the
chunks the stream yields, an exception raised by the stream after those
chunks, and the iteration index (counted over fetched chunks) just before
whose cancellation check cancel gets invoked by the consumer. -/
structure TurnScript where
  createErr : Option PyError
  chunks : List StreamChunk
  streamErr : Option PyError
  cancelAt : Option Nat
deriving Repr, DecidableEq

/-- Content extracted from a chunk by the loop body (agent_loop.py lines
75-77): the delta content of the first choice when the choices list is
nonempty, kept only when truthy. -/
def chunkText (c : StreamChunk) : Option String :=
  match c.choices with
  | [] => none
  | first :: _ => if pyTruthy first then first else none

/-- The canceled flag observed at cancellation check number i of a turn
that started with the flag down, when the consumer invokes cancel just
before check number n. Once raised the flag stays raised. -/
def flagAt (cancelAt : Option Nat) (i : Nat) : Bool :=
  match cancelAt with
  | none => false
  | some n => decide (n ≤ i)

/-- The streaming for-loop of AgentLoopPy.run (agent_loop.py lines 70-81):
returns the truthy content parts processed in order (each one is
accumulated, passed to the item sink and yielded) and whether the loop
broke out because the canceled flag was observed raised. -/
def streamLoop (cancelAt : Option Nat) : List StreamChunk → Nat → List String × Bool
  | [], _ => ([], false)
  | c :: rest, i =>
    if flagAt cancelAt i then ([], true)
    else
      let tail := streamLoop cancelAt rest (i + 1)
      match chunkText c with
      | some s => (s :: tail.1, tail.2)
      | none => tail

/-- Outputs of the try block of one started turn: the list of strings
accumulated (streamed parts, possibly followed by one formatted error
string), and whether the turn ended by observing the cancellation flag. -/
def turnOutputs (script : TurnScript) : List String × Bool :=
  match script.createErr with
  | some e => ([formatErrorMessage e], false)
  | none =>
    let r := streamLoop script.cancelAt script.chunks 0
    if r.2 then (r.1, true)
    else
      match script.streamErr with
      | some e => (r.1 ++ [formatErrorMessage e], false)
      | none => (r.1, false)

/-- Everything observable about one call to AgentLoopPy.run, assuming the
caller consumes the produced sequence to the end: the fragments yielded,
the item-sink invocations, the loading-sink invocations, the outbound
message list passed to the create call (none when no request was issued),
the final accumulator string, and the state of the instance afterwards. -/
structure RunResult where
  yielded : List String
  itemCalls : List String
  loadingCalls : List Bool
  sent : Option (List TranscriptEntry)
  acc : String
  finalState : LoopState
deriving Repr, DecidableEq

/-- Fallback system message (agent_loop.py line 57). -/
def fallbackSystemMessage : String := "You are a helpful assistant."

/-- Content of the synthesized system message: the configured instructions
when truthy, the fixed fallback greeting otherwise (Python or-expression
on line 57). -/
def systemContent (instructions : Option String) : String :=
  match instructions with
  | some s => if s.isEmpty then fallbackSystemMessage else s
  | none => fallbackSystemMessage

/-- AgentLoopPy.run (agent_loop.py lines 43-106). When the cancellation
flag is already raised the call returns at once, producing nothing and
leaving the state untouched. Otherwise it reports loading, appends the
user entry, builds the outbound message list as the synthesized system
message followed by the whole transcript, consumes the stream as described
by the script, formats any raised exception, reports loading done, clears
the stream reference, and appends one assistant entry holding the full
accumulator text when that text is nonempty. -/
def run (st : LoopState) (instructions : Option String) (prompt : String)
    (script : TurnScript) : RunResult :=
  if st.canceled then
    RunResult.mk [] [] [] none "" st
  else
    let transcript1 := st.transcript ++ [TranscriptEntry.mk "user" prompt]
    let payload := TranscriptEntry.mk "system" (systemContent instructions) :: transcript1
    let outs := turnOutputs script
    let acc := String.join outs.1
    RunResult.mk outs.1 outs.1 [true, false] (some payload) acc
      (LoopState.mk
        (transcript1 ++ (if acc.isEmpty then [] else [TranscriptEntry.mk "assistant" acc]))
        outs.2 none)

/-- AgentLoopPy.cancel (agent_loop.py lines 114-122): raises the flag and
touches nothing else; in particular the stream reference is neither closed
nor cleared. -/
def cancel (st : LoopState) : LoopState :=
  LoopState.mk st.transcript true st.currentStream

/-- AgentLoopPy.clear_history (agent_loop.py lines 109-112): empties the
transcript only. -/
def clear_history (st : LoopState) : LoopState :=
  LoopState.mk [] st.canceled st.currentStream

/-- Runs a sequence of turns on one instance, collecting the result of
every call to run. -/
def runMany (instructions : Option String) :
    LoopState → List (String × TurnScript) → List RunResult × LoopState
  | st, [] => ([], st)
  | st, (p, sc) :: rest =>
    let r := run st instructions p sc
    let next := runMany instructions r.finalState rest
    (r :: next.1, next.2)

/-- Number of run calls in a result list that actually started a turn
(issued a request) rather than being the silent no-op of a cancelled
instance. -/
def startedCount (rs : List RunResult) : Nat :=
  (rs.filter (fun r => r.sent.isSome)).length

/-- Number of started turns whose final accumulator text was empty. -/
def emptyStartedCount (rs : List RunResult) : Nat :=
  (rs.filter (fun r => r.sent.isSome && r.acc.isEmpty)).length

/-- Decides whether the character list pat occurs at the front of the
second list. -/
def hasPrefixChars : List Char → List Char → Bool
  | [], _ => true
  | _ :: _, [] => false
  | p :: ps, c :: cs => p == c && hasPrefixChars ps cs

/-- Decides whether the character list pat occurs anywhere inside the
second list. -/
def strContainsChars (pat : List Char) : List Char → Bool
  | [] => hasPrefixChars pat []
  | c :: cs => hasPrefixChars pat (c :: cs) || strContainsChars pat cs

/-- Decides whether pat occurs as a substring of s. -/
def strContains (s pat : String) : Bool :=
  strContainsChars pat.toList s.toList

/-! Configuration layer: data model (models.py), provider registry
(default_providers.py) and resolver (config.py). -/

/-- The process environment, mapping a variable name to its value when the
variable is set. -/
def Env : Type := String → Option String

/-- ProviderInfo (models.py lines 4-8): per-provider settings with the
resolved credential. -/
structure ProviderInfo where
  name : String
  base_url : Option String
  env_key : Option String
  api_key : Option String
deriving Repr, DecidableEq

/-- AppConfig (models.py lines 10-20) after resolution by load_config:
top-level scalars, the provider mapping (an association list preserving
dict insertion order), and the denormalized credential of the active
provider. -/
structure AppConfig where
  model : String
  provider : Option String
  approvalMode : String
  instructions : String
  providers : List (String × ProviderInfo)
  default_provider : String
  api_key : Option String
deriving Repr, DecidableEq

/-- Association-list lookup with Python dict semantics (first binding of
the key). -/
def alookup {α : Type} : List (String × α) → String → Option α
  | [], _ => none
  | (k, v) :: rest, key => if k = key then some v else alookup rest key

/-- Association-list assignment with Python dict semantics: replace the
binding in place when the key exists, append otherwise. -/
def aupsert {α : Type} : List (String × α) → String → α → List (String × α)
  | [], k, v => [(k, v)]
  | (k0, v0) :: rest, k, v =>
    if k0 = k then (k, v) :: rest else (k0, v0) :: aupsert rest k v

/-- Hard-coded fallback model identifier (config.py line 19). -/
def DEFAULT_MODEL : String := "gpt-4"

/-- Hard-coded fallback provider identifier (config.py line 20). -/
def DEFAULT_PROVIDER : String := "openai"

/-- Hard-coded fallback approval mode (config.py line 21). -/
def DEFAULT_APPROVAL_MODE : String := "auto"

/-- Hard-coded fallback instructions (config.py line 16). -/
def DEFAULT_INSTRUCTIONS : String :=
  "You are a helpful AI assistant. Please perform the requested file operations."

/-- Fixed protocol version string used for the Azure dialect
(config.py line 24). -/
def AZURE_OPENAI_API_VERSION : String := "2023-07-01-preview"

/-- Fixed request timeout in milliseconds (config.py line 25). -/
def OPENAI_TIMEOUT_MS : Nat := 30000

/-- Timeout argument passed to every constructed client, in the seconds
unit the openai package expects. The Python source computes
OPENAI_TIMEOUT_MS / 1000.0 with float division; the division is exact
(30000 / 1000 = 30), so it is modelled as a natural number of seconds. -/
def clientTimeoutSeconds : Nat := OPENAI_TIMEOUT_MS / 1000

/-- The static provider table of default_providers.py lines 3-35, before
the import-time OLLAMA_BASE_URL adjustment. -/
def DEFAULT_PROVIDERS_base : List (String × ProviderInfo) :=
  [("openai",
     ProviderInfo.mk "OpenAI" (some "https://api.openai.com/v1") (some "OPENAI_API_KEY") none),
   ("azure",
     ProviderInfo.mk "Azure OpenAI" none (some "AZURE_OPENAI_API_KEY") none),
   ("ollama",
     ProviderInfo.mk "Ollama" (some "http://localhost:11434") none none),
   ("anthropic",
     ProviderInfo.mk "Anthropic" (some "https://api.anthropic.com/v1") (some "ANTHROPIC_API_KEY") none),
   ("google",
     ProviderInfo.mk "Google" none (some "GOOGLE_API_KEY") none),
   ("mistral",
     ProviderInfo.mk "Mistral AI" (some "https://api.mistral.ai/v1") (some "MISTRAL_API_KEY") none)]

/-- DEFAULT_PROVIDERS as observed by config.py: the static table, with the
ollama base endpoint replaced by OLLAMA_BASE_URL when that variable is set
and truthy (default_providers.py lines 38-41, executed at import time). -/
def DEFAULT_PROVIDERS (env : Env) : List (String × ProviderInfo) :=
  match env "OLLAMA_BASE_URL" with
  | some v =>
    if v.isEmpty then DEFAULT_PROVIDERS_base
    else
      DEFAULT_PROVIDERS_base.map (fun e =>
        if e.1 = "ollama" then
          (e.1, ProviderInfo.mk e.2.name (some v) e.2.env_key e.2.api_key)
        else e)
  | none => DEFAULT_PROVIDERS_base

/-- A provider entry as it appears in the parsed settings file: every
field present or absent. Null-valued present keys are not distinguished
from absent keys. -/
structure RawProvider where
  name : Option String
  base_url : Option String
  env_key : Option String
  api_key : Option String
deriving Repr, DecidableEq

/-- The parsed settings file as a raw mapping: every recognized key
present or absent. -/
structure RawConfig where
  model : Option String
  provider : Option String
  approvalMode : Option String
  instructions : Option String
  providers : Option (List (String × RawProvider))
  default_provider : Option String
deriving Repr, DecidableEq

/-- The empty raw mapping that a parse failure is turned into. -/
def emptyRawConfig : RawConfig := RawConfig.mk none none none none none none

/-- Dump of a registry entry as a raw provider dict,
ProviderInfo.model_dump with exclude_none: a field is present exactly when
it is not None. -/
def dumpProvider (p : ProviderInfo) : RawProvider :=
  RawProvider.mk (some p.name) p.base_url p.env_key p.api_key

/-- Takes the first field when present, the second otherwise. -/
def mergeField (fileVal dfltVal : Option String) : Option String :=
  match fileVal with
  | some v => some v
  | none => dfltVal

/-- Field-by-field backfill of a file provider entry from a registry dump
(config.py lines 103-106): file values win, missing fields are filled from
the dump. -/
def backfill (fileEntry dflt : RawProvider) : RawProvider :=
  RawProvider.mk (mergeField fileEntry.name dflt.name)
    (mergeField fileEntry.base_url dflt.base_url)
    (mergeField fileEntry.env_key dflt.env_key)
    (mergeField fileEntry.api_key dflt.api_key)

/-- One step of the registry merge loop (config.py lines 99-106) for a
single registry entry: inject it when absent, backfill missing fields when
present. -/
def mergeStep (acc : List (String × RawProvider)) (nd : String × ProviderInfo) :
    List (String × RawProvider) :=
  match alookup acc nd.1 with
  | none => aupsert acc nd.1 (dumpProvider nd.2)
  | some fe => aupsert acc nd.1 (backfill fe (dumpProvider nd.2))

/-- The registry merge loop of config.py lines 99-106 over the whole
registry. -/
def mergeDefaultProviders (env : Env) (fileProvs : List (String × RawProvider)) :
    List (String × RawProvider) :=
  List.foldl mergeStep fileProvs (DEFAULT_PROVIDERS env)

/-- Credential after environment application (config.py lines 114-120):
overwritten from the environment variable named by the entry when both the
variable name and its value are truthy, kept otherwise. -/
def envApiKey (env : Env) (data : RawProvider) : Option String :=
  match data.env_key with
  | some ek =>
    if ek.isEmpty then data.api_key
    else
      match env ek with
      | some v => if v.isEmpty then data.api_key else some v
      | none => data.api_key
  | none => data.api_key

/-- ASCII uppercase of one character, modelling Python str.upper on the
ASCII provider identifiers used by the registry. -/
def asciiUpper (c : Char) : Char :=
  if 97 ≤ c.toNat ∧ c.toNat ≤ 122 then Char.ofNat (c.toNat - 32) else c

/-- ASCII uppercase of a string (Python name.upper() on config.py line
125; provider identifiers are ASCII). -/
def strUpper (s : String) : String :=
  String.mk (s.data.map asciiUpper)

/-- Base endpoint after environment application (config.py lines 123-133):
the provider-specific variable when truthy, else the unscoped
OLLAMA_BASE_URL for the ollama provider when truthy, else the entry value
when present, else the registry default. -/
def envBaseUrl (env : Env) (defaults : List (String × ProviderInfo))
    (name : String) (data : RawProvider) : Option String :=
  if pyTruthy (env (strUpper name ++ "_BASE_URL")) then
    env (strUpper name ++ "_BASE_URL")
  else if name = "ollama" ∧ pyTruthy (env "OLLAMA_BASE_URL") then env "OLLAMA_BASE_URL"
  else
    match data.base_url with
    | some b => some b
    | none =>
      match alookup defaults name with
      | some p => p.base_url
      | none => none

/-- Environment application to one provider entry (config.py lines
111-133). Building ProviderInfo from the entry on line 112 requires the
name field, so a nameless entry is a validation error. -/
def applyEnvToProvider (env : Env) (defaults : List (String × ProviderInfo))
    (name : String) (data : RawProvider) : Except String RawProvider :=
  match data.name with
  | none => Except.error ("validation error: providers." ++ name ++ ".name missing")
  | some _ =>
    Except.ok (RawProvider.mk data.name (envBaseUrl env defaults name data)
      data.env_key (envApiKey env data))

/-- Environment application over the whole provider mapping, entry by
entry in order. -/
def applyEnvToProviders (env : Env) (defaults : List (String × ProviderInfo)) :
    List (String × RawProvider) → Except String (List (String × RawProvider))
  | [] => Except.ok []
  | (n, d) :: rest =>
    match applyEnvToProvider env defaults n d with
    | Except.error e => Except.error e
    | Except.ok d1 =>
      match applyEnvToProviders env defaults rest with
      | Except.error e => Except.error e
      | Except.ok rest1 => Except.ok ((n, d1) :: rest1)

/-- Conversion of the resolved raw provider mapping into ProviderInfo
values by the final AppConfig construction (pydantic validation on
config.py line 156): the name field is required. -/
def toProviderInfos : List (String × RawProvider) → Except String (List (String × ProviderInfo))
  | [] => Except.ok []
  | (n, r) :: rest =>
    match r.name with
    | none => Except.error ("validation error: providers." ++ n ++ ".name missing")
    | some nm =>
      match toProviderInfos rest with
      | Except.error e => Except.error e
      | Except.ok rest1 =>
        Except.ok ((n, ProviderInfo.mk nm r.base_url r.env_key r.api_key) :: rest1)

/-- Defaulting of a top-level scalar (config.py lines 145-153): the raw
value when present and truthy, the fallback otherwise. -/
def scalarOr (raw : Option String) (fallback : String) : String :=
  match raw with
  | some v => if v.isEmpty then fallback else v
  | none => fallback

/-- The provider section of a raw mapping, normalized to the empty dict
when absent or empty (config.py lines 94-96). -/
def fileProviders (raw : RawConfig) : List (String × RawProvider) :=
  match raw.providers with
  | some l => l
  | none => []

/-- Resolution of a raw mapping into an AppConfig (config.py lines
92-156): normalize the provider section, merge the registry, apply
environment overrides, copy the active provider credential to the top
level, backfill top-level scalars, and validate the approval mode against
its enumeration. -/
def resolveConfig (env : Env) (raw : RawConfig) : Except String AppConfig :=
  let fileProvs := fileProviders raw
  let merged := mergeDefaultProviders env fileProvs
  match applyEnvToProviders env (DEFAULT_PROVIDERS env) merged with
  | Except.error e => Except.error e
  | Except.ok envApplied =>
    let current_provider :=
      match raw.provider with
      | some p => p
      | none => DEFAULT_PROVIDER
    let api_key :=
      match alookup envApplied current_provider with
      | some d => d.api_key
      | none => none
    let modelv := scalarOr raw.model DEFAULT_MODEL
    let approval := scalarOr raw.approvalMode DEFAULT_APPROVAL_MODE
    let instr := scalarOr raw.instructions DEFAULT_INSTRUCTIONS
    let defProv := scalarOr raw.default_provider DEFAULT_PROVIDER
    if approval = "auto" ∨ approval = "manual" ∨ approval = "none" then
      match toProviderInfos envApplied with
      | Except.error e => Except.error e
      | Except.ok provs =>
        Except.ok (AppConfig.mk modelv raw.provider approval instr provs defProv api_key)
    else Except.error "validation error: approvalMode outside the enumerated set"

/-! File system model for the settings directory. -/

/-- The two recognized settings file formats, tried in this fixed order. -/
inductive ConfigFileKind where
  | json
  | yaml
deriving Repr, DecidableEq

/-- State of the settings directory: for each recognized format, whether
the file exists and, when it does, the raw mapping it parses to (none
models an unparseable file). -/
structure ConfigDir where
  json : Option (Option RawConfig)
  yaml : Option (Option RawConfig)
deriving Repr, DecidableEq

/-- The config file chosen by config.py lines 31-41: the json file when it
exists, else the yaml file when it exists, else none. -/
def getConfigFilepath (fs : ConfigDir) : Option ConfigFileKind :=
  if fs.json.isSome then some ConfigFileKind.json
  else if fs.yaml.isSome then some ConfigFileKind.yaml
  else none

/-- The raw mapping the bootstrap writes when no settings file exists
(config.py lines 60-67): hard defaults plus the full registry dump. -/
def defaultRawConfig (env : Env) : RawConfig :=
  RawConfig.mk (some DEFAULT_MODEL) (some DEFAULT_PROVIDER) (some DEFAULT_APPROVAL_MODE)
    (some DEFAULT_INSTRUCTIONS)
    (some ((DEFAULT_PROVIDERS env).map (fun p => (p.1, dumpProvider p.2))))
    (some DEFAULT_PROVIDER)

/-- The bootstrap of config.py lines 56-70: when no settings file exists
in either format, write the synthesized default file in the json format;
otherwise leave the directory untouched. -/
def bootstrapDefaultConfigFile (env : Env) (fs : ConfigDir) : ConfigDir :=
  if getConfigFilepath fs = none then
    ConfigDir.mk (some (some (defaultRawConfig env))) fs.yaml
  else fs

/-- Reading the chosen file into a raw mapping, with a parse failure
swallowed into the empty mapping (config.py lines 43-54 and 85-88). -/
def effectiveRaw (env : Env) (fs : ConfigDir) : RawConfig :=
  let fs1 := bootstrapDefaultConfigFile env fs
  match getConfigFilepath fs1 with
  | some ConfigFileKind.json =>
    match fs1.json with
    | some (some r) => r
    | some none => emptyRawConfig
    | none => emptyRawConfig
  | some ConfigFileKind.yaml =>
    match fs1.yaml with
    | some (some r) => r
    | some none => emptyRawConfig
    | none => emptyRawConfig
  | none => emptyRawConfig

/-- load_config (config.py lines 73-156): bootstrap when needed, read and
parse the chosen file, then resolve. -/
def load_config (env : Env) (fs : ConfigDir) : Except String AppConfig :=
  resolveConfig env (effectiveRaw env fs)

/-- The parse result of the settings file that load_config reads: none
when no file exists, some none when the existing file is unparseable,
some (some r) when it parses to r. -/
def chosenParse (fs : ConfigDir) : Option (Option RawConfig) :=
  match getConfigFilepath fs with
  | some ConfigFileKind.json => fs.json
  | some ConfigFileKind.yaml => fs.yaml
  | none => none

/-- set_api_key (config.py lines 205-219): overwrite the credential of an
existing entry, mirroring it into the top-level denormalized credential
when the entry is the active provider; otherwise create a fresh entry
named after the identifier, leaving the top-level credential untouched. -/
def set_api_key (api_key : String) (provider_name : String) (cfg : AppConfig) : AppConfig :=
  match alookup cfg.providers provider_name with
  | some info =>
    let providers1 :=
      aupsert cfg.providers provider_name
        (ProviderInfo.mk info.name info.base_url info.env_key (some api_key))
    if cfg.provider = some provider_name then
      AppConfig.mk cfg.model cfg.provider cfg.approvalMode cfg.instructions providers1
        cfg.default_provider (some api_key)
    else
      AppConfig.mk cfg.model cfg.provider cfg.approvalMode cfg.instructions providers1
        cfg.default_provider cfg.api_key
  | none =>
    AppConfig.mk cfg.model cfg.provider cfg.approvalMode cfg.instructions
      (aupsert cfg.providers provider_name (ProviderInfo.mk provider_name none none (some api_key)))
      cfg.default_provider cfg.api_key

/-! Provider client factory (openai_client_factory.py). -/

/-- The constructed network client: the distinguished Azure dialect with
its endpoint and protocol version, or the generic client with an optional
explicit base endpoint. Both record the timeout in seconds passed to the
constructor. -/
inductive OpenAIClient where
  | azureClient (azure_endpoint : String) (api_version : String)
      (api_key : Option String) (timeoutSeconds : Nat)
  | openaiClient (api_key : Option String) (base_url : Option String)
      (timeoutSeconds : Nat)
deriving Repr, DecidableEq

/-- The timeout argument a client was constructed with. -/
def OpenAIClient.timeoutOf : OpenAIClient → Nat
  | azureClient _ _ _ t => t
  | openaiClient _ _ t => t

/-- create_openai_client (openai_client_factory.py lines 12-59): validate
the active provider, its entry and its credential, then construct the
Azure dialect client or the generic client. The base endpoint is passed
to the generic client only when truthy. -/
def create_openai_client (cfg : AppConfig) : Except String OpenAIClient :=
  if pyTruthy cfg.provider then
    let provider_name :=
      match cfg.provider with
      | some p => p
      | none => ""
    match alookup cfg.providers provider_name with
    | none =>
      Except.error ("Configuration for provider '" ++ provider_name ++ "' not found.")
    | some info =>
      if pyTruthy info.api_key = false ∧ provider_name ≠ "ollama" then
        Except.error ("API key for provider '" ++ provider_name ++ "' is missing.")
      else if provider_name = "azure" then
        if pyTruthy info.base_url then
          match info.base_url with
          | some b =>
            Except.ok (OpenAIClient.azureClient b AZURE_OPENAI_API_VERSION info.api_key
              clientTimeoutSeconds)
          | none =>
            Except.error "Base URL (Azure OpenAI endpoint) is required for Azure provider."
        else
          Except.error "Base URL (Azure OpenAI endpoint) is required for Azure provider."
      else
        Except.ok (OpenAIClient.openaiClient info.api_key
          (if pyTruthy info.base_url then info.base_url else none) clientTimeoutSeconds)
  else Except.error "Provider name is not configured in AppConfig."

/-! Helper lemmas about the agent loop. -/

/-- A run call on an instance whose flag is raised is the silent no-op. -/
theorem run_of_canceled (st : LoopState) (instr : Option String) (p : String)
    (sc : TurnScript) (h : st.canceled = true) :
    run st instr p sc = RunResult.mk [] [] [] none "" st := by
  simp [run, h]

/-- Transcript shape after one started turn. -/
theorem run_transcript_shape (st : LoopState) (instr : Option String) (p : String)
    (sc : TurnScript) (h : st.canceled = false) :
    (run st instr p sc).finalState.transcript =
      st.transcript ++ TranscriptEntry.mk "user" p ::
        (if (run st instr p sc).acc.isEmpty then []
         else [TranscriptEntry.mk "assistant" (run st instr p sc).acc]) := by
  simp [run, h]

/-- A started turn issues exactly one request. -/
theorem run_sent_isSome (st : LoopState) (instr : Option String) (p : String)
    (sc : TurnScript) (h : st.canceled = false) :
    (run st instr p sc).sent.isSome = true := by
  simp [run, h]

theorem startedCount_cons (r : RunResult) (rs : List RunResult) :
    startedCount (r :: rs) = (if r.sent.isSome then 1 else 0) + startedCount rs := by
  simp only [startedCount, List.filter_cons]
  by_cases h : r.sent.isSome = true <;> simp [h, Nat.add_comm]

theorem emptyStartedCount_cons (r : RunResult) (rs : List RunResult) :
    emptyStartedCount (r :: rs) =
      (if r.sent.isSome && r.acc.isEmpty then 1 else 0) + emptyStartedCount rs := by
  simp only [emptyStartedCount, List.filter_cons]
  by_cases h : (r.sent.isSome && r.acc.isEmpty) = true <;> simp [h, Nat.add_comm]

/-- Bookkeeping over a whole turn sequence: transcript growth equals twice
the number of started turns minus the started turns with an empty
accumulator, stated in addition form. -/
theorem runMany_transcript_length (instr : Option String) :
    ∀ (turns : List (String × TurnScript)) (st : LoopState),
      (runMany instr st turns).2.transcript.length +
          emptyStartedCount (runMany instr st turns).1 =
        st.transcript.length + 2 * startedCount (runMany instr st turns).1
  | [], st => by simp [runMany, startedCount, emptyStartedCount]
  | (p, sc) :: rest, st => by
    have ih := runMany_transcript_length instr rest (run st instr p sc).finalState
    by_cases h : st.canceled = true
    · rw [runMany]
      rw [run_of_canceled st instr p sc h] at ih ⊢
      simp only [startedCount_cons, emptyStartedCount_cons]
      simpa using ih
    · rw [runMany]
      have hnc : st.canceled = false := by simpa using h
      have hshape := run_transcript_shape st instr p sc hnc
      have hsent := run_sent_isSome st instr p sc hnc
      simp only [startedCount_cons, emptyStartedCount_cons, hsent, Bool.true_and]
      rw [hshape] at ih
      by_cases hacc : (run st instr p sc).acc.isEmpty = true
      · simp [hacc, List.length_append] at ih ⊢
        omega
      · simp [hacc, List.length_append] at ih ⊢
        omega

/-! C1. The claim states that a provider-reported error yields text
containing the fixed label of the classified error kind together with the
original message, with the transcript assistant entry equal to the yielded
text. The source formats every openai.APIError through the single
template of agent_loop.py line 84, so no kind label such as the
authentication label ever appears, although the tests of the repository
(tests/agent/test_agent_loop.py lines 193-266) assert those labels. -/

/-- Provider behavior raising an authentication-style error with message
Invalid API key at the create call. -/
def authFailureScript : TurnScript :=
  TurnScript.mk (some (PyError.apiError ApiErrorKind.authentication "Invalid API key")) []
    none none

/-- C1: on a fresh loop, a run whose provider raises an
authentication-style error yields exactly the fixed generic template with
the original message; the yielded text does contain the original message
and the transcript assistant entry equals the yielded text, but the text
does not contain the authentication kind label, contradicting the claim
and the tests of the repository. -/
theorem run_auth_error_lacks_kind_label :
    (run loopInit none "test prompt" authFailureScript).yielded =
      ["OpenAI API Error: Invalid API key"]
    ∧ strContains (String.join (run loopInit none "test prompt" authFailureScript).yielded)
        "Invalid API key" = true
    ∧ strContains (String.join (run loopInit none "test prompt" authFailureScript).yielded)
        "Authentication Error" = false
    ∧ (run loopInit none "test prompt" authFailureScript).finalState.transcript =
        [TranscriptEntry.mk "user" "test prompt",
         TranscriptEntry.mk "assistant" "OpenAI API Error: Invalid API key"] := by
  refine ⟨by decide, by decide, by decide, by decide⟩

/-! C2. History inclusion: the outbound message list of the next run after
any sequence of prior run calls is the synthesized system message,
followed by the whole prior transcript, followed by the just-appended user
entry. -/

/-- A sample provider behavior streaming three chunks, used by witnesses. -/
def sampleTurn : TurnScript :=
  TurnScript.mk none
    [StreamChunk.mk [some "Test "], StreamChunk.mk [some "response"], StreamChunk.mk [some "."]]
    none none

/-- C2: after any sequence of prior run calls on one instance, provided
the instance is not cancelled, the next run sends exactly the synthesized
system message (configured instructions, or the fixed fallback greeting
when they are empty or missing) followed by all prior transcript entries
followed by the user entry for the current prompt, in that order. -/
theorem run_history_inclusion (instr : Option String) (turns : List (String × TurnScript))
    (p : String) (sc : TurnScript)
    (h : (runMany instr loopInit turns).2.canceled = false) :
    (run (runMany instr loopInit turns).2 instr p sc).sent =
      some (TranscriptEntry.mk "system" (systemContent instr) ::
        (runMany instr loopInit turns).2.transcript ++ [TranscriptEntry.mk "user" p]) := by
  simp [run, h]

theorem run_history_inclusion_witness :
    (run (runMany (some "sys") loopInit [("q1", sampleTurn)]).2 (some "sys") "q2" sampleTurn).sent =
      some (TranscriptEntry.mk "system" (systemContent (some "sys")) ::
        (runMany (some "sys") loopInit [("q1", sampleTurn)]).2.transcript ++
          [TranscriptEntry.mk "user" "q2"]) :=
  run_history_inclusion (some "sys") [("q1", sampleTurn)] "q2" sampleTurn (by decide)

/-! C3. Transcript append-only invariant. -/

/-- C3: starting from a fresh instance, after any sequence of run calls
the transcript length equals twice the number of turns that actually ran
(reached the completed, failed or cancelled state) minus the number of
those turns whose accumulator stayed empty; moreover every run call only
ever appends to the transcript, and a started turn appends exactly one
user entry followed by one assistant entry holding the full accumulator
exactly when that accumulator is nonempty. -/
theorem transcript_append_only (instr : Option String) (turns : List (String × TurnScript)) :
    ((runMany instr loopInit turns).2.transcript.length =
      2 * startedCount (runMany instr loopInit turns).1 -
        emptyStartedCount (runMany instr loopInit turns).1)
    ∧ (∀ st p sc, ∃ tail, (run st instr p sc).finalState.transcript = st.transcript ++ tail)
    ∧ (∀ st p sc, st.canceled = false →
        (run st instr p sc).finalState.transcript =
          st.transcript ++ TranscriptEntry.mk "user" p ::
            (if (run st instr p sc).acc.isEmpty then []
             else [TranscriptEntry.mk "assistant" (run st instr p sc).acc])) := by
  refine ⟨?_, ?_, ?_⟩
  · have h := runMany_transcript_length instr turns loopInit
    simp only [show loopInit.transcript = [] from rfl, List.length_nil] at h
    omega
  · intro st p sc
    by_cases h : st.canceled = true
    · exact ⟨[], by rw [run_of_canceled st instr p sc h]; simp⟩
    · have hnc : st.canceled = false := by simpa using h
      exact ⟨_, run_transcript_shape st instr p sc hnc⟩
  · intro st p sc h
    exact run_transcript_shape st instr p sc h

theorem transcript_append_only_witness :
    ((runMany none loopInit [("hi", sampleTurn)]).2.transcript.length =
      2 * startedCount (runMany none loopInit [("hi", sampleTurn)]).1 -
        emptyStartedCount (runMany none loopInit [("hi", sampleTurn)]).1)
    ∧ (run loopInit none "hi" sampleTurn).finalState.transcript =
        loopInit.transcript ++ TranscriptEntry.mk "user" "hi" ::
          (if (run loopInit none "hi" sampleTurn).acc.isEmpty then []
           else [TranscriptEntry.mk "assistant" (run loopInit none "hi" sampleTurn).acc]) :=
  ⟨(transcript_append_only none [("hi", sampleTurn)]).1,
   (transcript_append_only none [("hi", sampleTurn)]).2.2 loopInit "hi" sampleTurn rfl⟩

/-! C5. Sticky cancellation. -/

/-- C5: once the flag is raised it stays raised: a run on a cancelled
instance is the silent no-op, returning at once, yielding nothing,
invoking neither sink, touching neither the transcript nor the flag;
cancel is idempotent, raises only the flag and neither closes nor clears
the stream reference; clear_history never changes the flag. -/
theorem cancel_sticky (st : LoopState) (instr : Option String) (p : String) (sc : TurnScript) :
    (st.canceled = true → run st instr p sc = RunResult.mk [] [] [] none "" st)
    ∧ cancel (cancel st) = cancel st
    ∧ (cancel st).canceled = true
    ∧ (cancel st).currentStream = st.currentStream
    ∧ (cancel st).transcript = st.transcript
    ∧ (clear_history st).canceled = st.canceled := by
  exact ⟨fun h => run_of_canceled st instr p sc h, rfl, rfl, rfl, rfl, rfl⟩

theorem cancel_sticky_witness :
    run (cancel loopInit) none "again" sampleTurn = RunResult.mk [] [] [] none "" (cancel loopInit)
    ∧ cancel (cancel (cancel loopInit)) = cancel (cancel loopInit) :=
  ⟨(cancel_sticky (cancel loopInit) none "again" sampleTurn).1 rfl,
   (cancel_sticky (cancel loopInit) none "again" sampleTurn).2.1⟩

/-! C8. Loading-state sink. The claim asserts exactly two sink invocations
for every call to run; a call on an already-cancelled instance returns
before the first sink invocation, so the sink is invoked zero times there.
For every call that actually starts a turn the claim holds. -/

/-- C8 counterexample: a run call on a cancelled instance invokes the
loading sink zero times, not exactly twice with true then false. -/
theorem loading_sink_cancelled_counterexample :
    (run (LoopState.mk [] true none) none "hello" sampleTurn).loadingCalls = []
    ∧ ¬((run (LoopState.mk [] true none) none "hello" sampleTurn).loadingCalls =
        [true, false]) := by
  refine ⟨by decide, by decide⟩

/-- C8 amended: for every run call on a not-yet-cancelled instance — that
is, every call whose turn reaches the completed, failed or cancelled
state — the loading sink is invoked exactly twice, with true at the start
and false at the end, regardless of the provider behavior and of
mid-stream cancellation. -/
theorem loading_sink_twice_when_started (st : LoopState) (instr : Option String)
    (p : String) (sc : TurnScript) (h : st.canceled = false) :
    (run st instr p sc).loadingCalls = [true, false] := by
  simp [run, h]

theorem loading_sink_twice_when_started_witness :
    (run loopInit none "hello" sampleTurn).loadingCalls = [true, false] :=
  loading_sink_twice_when_started loopInit none "hello" sampleTurn rfl

/-! Helper lemmas about association lists. -/

theorem alookup_aupsert_self {α : Type} :
    ∀ (m : List (String × α)) (k : String) (v : α), alookup (aupsert m k v) k = some v
  | [], k, v => by simp [aupsert, alookup]
  | (k0, v0) :: rest, k, v => by
    by_cases h : k0 = k
    · simp [aupsert, alookup, h]
    · have ih := alookup_aupsert_self rest k v
      simpa [aupsert, alookup, h] using ih

theorem alookup_aupsert_ne {α : Type} :
    ∀ (m : List (String × α)) (k k' : String) (v : α), k' ≠ k →
      alookup (aupsert m k v) k' = alookup m k'
  | [], k, k', v, h => by simp [aupsert, alookup, Ne.symm h]
  | (k0, v0) :: rest, k, k', v, h => by
    by_cases h0 : k0 = k
    · subst h0
      simp [aupsert, alookup, Ne.symm h]
    · by_cases h1 : k0 = k'
      · simp [aupsert, alookup, h0, h1, h]
      · have ih := alookup_aupsert_ne rest k k' v h
        simpa [aupsert, alookup, h0, h1] using ih

/-! C10. Behavior of set_api_key. -/

/-- C10: when the identifier already has a provider entry, set_api_key
overwrites its credential and mirrors the new credential into the
top-level denormalized field exactly when the identifier is the active
provider; when no entry exists, it creates a fresh entry whose display
name is the identifier itself and whose credential is the given key, and
never touches the top-level credential. -/
theorem set_api_key_cases (cfg : AppConfig) (key p : String) :
    (∀ info, alookup cfg.providers p = some info →
      alookup (set_api_key key p cfg).providers p =
        some (ProviderInfo.mk info.name info.base_url info.env_key (some key))
      ∧ (cfg.provider = some p → (set_api_key key p cfg).api_key = some key)
      ∧ (cfg.provider ≠ some p → (set_api_key key p cfg).api_key = cfg.api_key))
    ∧ (alookup cfg.providers p = none →
      alookup (set_api_key key p cfg).providers p =
        some (ProviderInfo.mk p none none (some key))
      ∧ (set_api_key key p cfg).api_key = cfg.api_key) := by
  refine ⟨?_, ?_⟩
  · intro info hi
    refine ⟨?_, ?_, ?_⟩
    · simp only [set_api_key, hi]
      by_cases hp : cfg.provider = some p
      · simp [hp, alookup_aupsert_self]
      · simp [hp, alookup_aupsert_self]
    · intro hp
      simp [set_api_key, hi, hp]
    · intro hp
      simp [set_api_key, hi, hp]
  · intro hn
    exact ⟨by simp [set_api_key, hn, alookup_aupsert_self], by simp [set_api_key, hn]⟩

/-- A small resolved configuration with one provider entry, used by
witnesses. -/
def sampleConfig : AppConfig :=
  AppConfig.mk "gpt-4" (some "openai") "auto" "inst"
    [("openai", ProviderInfo.mk "OpenAI" none none none)] "openai" none

theorem set_api_key_cases_witness :
    alookup (set_api_key "sk-new" "openai" sampleConfig).providers "openai" =
      some (ProviderInfo.mk "OpenAI" none none (some "sk-new"))
    ∧ (set_api_key "sk-new" "openai" sampleConfig).api_key = some "sk-new"
    ∧ alookup (set_api_key "sk-c" "custom" sampleConfig).providers "custom" =
      some (ProviderInfo.mk "custom" none none (some "sk-c"))
    ∧ (set_api_key "sk-c" "custom" sampleConfig).api_key = sampleConfig.api_key :=
  ⟨((set_api_key_cases sampleConfig "sk-new" "openai").1
      (ProviderInfo.mk "OpenAI" none none none) rfl).1,
   ((set_api_key_cases sampleConfig "sk-new" "openai").1
      (ProviderInfo.mk "OpenAI" none none none) rfl).2.1 rfl,
   ((set_api_key_cases sampleConfig "sk-c" "custom").2 rfl).1,
   ((set_api_key_cases sampleConfig "sk-c" "custom").2 rfl).2⟩

/-! C9. Bootstrap of the default settings file. -/

theorem getConfigFilepath_eq_none (fs : ConfigDir) :
    getConfigFilepath fs = none ↔ fs.json = none ∧ fs.yaml = none := by
  obtain ⟨j, y⟩ := fs
  cases j <;> cases y <;> simp [getConfigFilepath]

/-- C9: when no settings file exists in either recognized format, the
bootstrap writes the synthesized default file (hard defaults plus the full
registry dump) in the json format; when a settings file exists in either
format, the directory is left exactly as it was. -/
theorem bootstrap_only_when_missing (env : Env) (fs : ConfigDir) :
    (fs.json = none ∧ fs.yaml = none →
      bootstrapDefaultConfigFile env fs =
        ConfigDir.mk (some (some (defaultRawConfig env))) none)
    ∧ (fs.json ≠ none ∨ fs.yaml ≠ none → bootstrapDefaultConfigFile env fs = fs) := by
  constructor
  · rintro ⟨h1, h2⟩
    rw [bootstrapDefaultConfigFile, if_pos ((getConfigFilepath_eq_none fs).2 ⟨h1, h2⟩)]
    rw [h2]
  · intro h
    have hne : ¬getConfigFilepath fs = none := by
      intro hn
      rcases (getConfigFilepath_eq_none fs).1 hn with ⟨h1, h2⟩
      rcases h with h | h
      · exact h h1
      · exact h h2
    rw [bootstrapDefaultConfigFile, if_neg hne]

theorem bootstrap_only_when_missing_witness :
    bootstrapDefaultConfigFile (fun _ => none) (ConfigDir.mk none none) =
      ConfigDir.mk (some (some (defaultRawConfig (fun _ => none)))) none
    ∧ bootstrapDefaultConfigFile (fun _ => none) (ConfigDir.mk (some none) none) =
      ConfigDir.mk (some none) none :=
  ⟨(bootstrap_only_when_missing (fun _ => none) (ConfigDir.mk none none)).1 ⟨rfl, rfl⟩,
   (bootstrap_only_when_missing (fun _ => none) (ConfigDir.mk (some none) none)).2
     (Or.inl (by simp))⟩

/-! C6. Client factory error conditions and constructed clients. -/

/-- The exact configurations the factory rejects, as stated by the
specification: no active provider identifier set (absent means None or the
empty string, following Python truthiness), no entry for the active
provider, credential absent for a provider other than the single
credential-optional ollama provider, or the Azure dialect without a
resolved base endpoint. -/
def clientConfigError (cfg : AppConfig) : Prop :=
  pyTruthy cfg.provider = false
  ∨ (∃ p, cfg.provider = some p ∧ alookup cfg.providers p = none)
  ∨ (∃ p info, cfg.provider = some p ∧ alookup cfg.providers p = some info ∧
      pyTruthy info.api_key = false ∧ p ≠ "ollama")
  ∨ (∃ info, cfg.provider = some "azure" ∧ alookup cfg.providers "azure" = some info ∧
      pyTruthy info.base_url = false)

/-- Equation for the factory when the active provider identifier is not
set. -/
theorem create_err_no_provider (cfg : AppConfig) (h : pyTruthy cfg.provider = false) :
    create_openai_client cfg =
      Except.error "Provider name is not configured in AppConfig." := by
  simp [create_openai_client, h]

/-- Equation for the factory when the active provider has no entry. -/
theorem create_err_no_entry (cfg : AppConfig) (p : String)
    (hprov : cfg.provider = some p) (hpt : pyTruthy (some p) = true)
    (hl : alookup cfg.providers p = none) :
    create_openai_client cfg =
      Except.error ("Configuration for provider '" ++ p ++ "' not found.") := by
  simp [create_openai_client, hprov, hpt, hl]

/-- Equation for the factory when the credential is missing for a
credential-requiring provider. -/
theorem create_err_no_key (cfg : AppConfig) (p : String) (info : ProviderInfo)
    (hprov : cfg.provider = some p) (hpt : pyTruthy (some p) = true)
    (hl : alookup cfg.providers p = some info)
    (hk : pyTruthy info.api_key = false ∧ p ≠ "ollama") :
    create_openai_client cfg =
      Except.error ("API key for provider '" ++ p ++ "' is missing.") := by
  simp [create_openai_client, hprov, hpt, hl, hk]

/-- Equation for the factory when the Azure dialect lacks a resolved
endpoint. -/
theorem create_err_azure_endpoint (cfg : AppConfig) (info : ProviderInfo)
    (hprov : cfg.provider = some "azure")
    (hl : alookup cfg.providers "azure" = some info)
    (hkt : pyTruthy info.api_key = true) (hbf : pyTruthy info.base_url = false) :
    create_openai_client cfg =
      Except.error "Base URL (Azure OpenAI endpoint) is required for Azure provider." := by
  have hpa : pyTruthy (some "azure") = true := by decide
  simp [create_openai_client, hprov, hpa, hl, hkt, hbf]

/-- Equation for the factory in the successful Azure case. -/
theorem create_ok_azure (cfg : AppConfig) (info : ProviderInfo) (b : String)
    (hprov : cfg.provider = some "azure")
    (hl : alookup cfg.providers "azure" = some info)
    (hkt : pyTruthy info.api_key = true)
    (hbu : info.base_url = some b) (hbb : pyTruthy (some b) = true) :
    create_openai_client cfg =
      Except.ok (OpenAIClient.azureClient b AZURE_OPENAI_API_VERSION info.api_key
        clientTimeoutSeconds) := by
  have hpa : pyTruthy (some "azure") = true := by decide
  simp [create_openai_client, hprov, hpa, hl, hkt, hbu, hbb]

/-- Equation for the factory in the successful generic case. -/
theorem create_ok_generic (cfg : AppConfig) (p : String) (info : ProviderInfo)
    (hprov : cfg.provider = some p) (hpt : pyTruthy (some p) = true)
    (hl : alookup cfg.providers p = some info)
    (hk : ¬(pyTruthy info.api_key = false ∧ p ≠ "ollama")) (haz : p ≠ "azure") :
    create_openai_client cfg =
      Except.ok (OpenAIClient.openaiClient info.api_key
        (if pyTruthy info.base_url then info.base_url else none) clientTimeoutSeconds) := by
  simp [create_openai_client, hprov, hpt, hl, hk, haz]

/-- Timeout field of a constructed generic client. -/
theorem timeoutOf_openai (a b : Option String) (t : Nat) :
    (OpenAIClient.openaiClient a b t).timeoutOf = t := rfl

/-- Timeout field of a constructed Azure client. -/
theorem timeoutOf_azure (e v : String) (a : Option String) (t : Nat) :
    (OpenAIClient.azureClient e v a t).timeoutOf = t := rfl

/-- The factory fails exactly on the configurations of
clientConfigError. -/
theorem create_client_error_iff_aux (cfg : AppConfig) :
    (∃ e, create_openai_client cfg = Except.error e) ↔ clientConfigError cfg := by
  rcases hprov : cfg.provider with _ | p
  · have hfalse : pyTruthy cfg.provider = false := by simp [hprov, pyTruthy]
    exact ⟨fun _ => Or.inl hfalse, fun _ => ⟨_, create_err_no_provider cfg hfalse⟩⟩
  · by_cases hpe : p.isEmpty = true
    · have hfalse : pyTruthy cfg.provider = false := by simp [hprov, pyTruthy, hpe]
      exact ⟨fun _ => Or.inl hfalse, fun _ => ⟨_, create_err_no_provider cfg hfalse⟩⟩
    · have hpt : pyTruthy (some p) = true := by simp [pyTruthy, hpe]
      have htrue : pyTruthy cfg.provider = true := by rw [hprov]; exact hpt
      rcases hl : alookup cfg.providers p with _ | info
      · exact ⟨fun _ => Or.inr (Or.inl ⟨p, hprov, hl⟩),
          fun _ => ⟨_, create_err_no_entry cfg p hprov hpt hl⟩⟩
      · by_cases hk : pyTruthy info.api_key = false ∧ p ≠ "ollama"
        · exact ⟨fun _ => Or.inr (Or.inr (Or.inl ⟨p, info, hprov, hl, hk.1, hk.2⟩)),
            fun _ => ⟨_, create_err_no_key cfg p info hprov hpt hl hk⟩⟩
        · by_cases haz : p = "azure"
          · subst haz
            have hkt : pyTruthy info.api_key = true := by
              by_contra hx
              exact hk ⟨by simpa using hx, by decide⟩
            by_cases hb : pyTruthy info.base_url = true
            · rcases hbu : info.base_url with _ | b
              · rw [hbu] at hb
                simp [pyTruthy] at hb
              · have hbb : pyTruthy (some b) = true := by rw [← hbu]; exact hb
                have hok := create_ok_azure cfg info b hprov hl hkt hbu hbb
                constructor
                · rintro ⟨e, he⟩
                  rw [hok] at he
                  exact absurd he (by simp)
                · rintro (h1 | ⟨q, hq, h2⟩ | ⟨q, info2, hq, h2, h3, h4⟩ |
                    ⟨info2, hq, h2, h3⟩)
                  · rw [htrue] at h1
                    exact absurd h1 (by simp)
                  · rw [hprov] at hq
                    obtain rfl := Option.some.inj hq
                    rw [hl] at h2
                    exact absurd h2 (by simp)
                  · rw [hprov] at hq
                    obtain rfl := Option.some.inj hq
                    rw [hl] at h2
                    obtain rfl := Option.some.inj h2
                    rw [hkt] at h3
                    exact absurd h3 (by simp)
                  · rw [hl] at h2
                    obtain rfl := Option.some.inj h2
                    rw [hb] at h3
                    exact absurd h3 (by simp)
            · have hbf : pyTruthy info.base_url = false := by simpa using hb
              exact ⟨fun _ => Or.inr (Or.inr (Or.inr ⟨info, hprov, hl, hbf⟩)),
                fun _ => ⟨_, create_err_azure_endpoint cfg info hprov hl hkt hbf⟩⟩
          · have hok := create_ok_generic cfg p info hprov hpt hl hk haz
            constructor
            · rintro ⟨e, he⟩
              rw [hok] at he
              exact absurd he (by simp)
            · rintro (h1 | ⟨q, hq, h2⟩ | ⟨q, info2, hq, h2, h3, h4⟩ |
                ⟨info2, hq, h2, h3⟩)
              · rw [htrue] at h1
                exact absurd h1 (by simp)
              · rw [hprov] at hq
                obtain rfl := Option.some.inj hq
                rw [hl] at h2
                exact absurd h2 (by simp)
              · rw [hprov] at hq
                obtain rfl := Option.some.inj hq
                rw [hl] at h2
                obtain rfl := Option.some.inj h2
                exact absurd ⟨h3, h4⟩ hk
              · rw [hprov] at hq
                exact absurd (Option.some.inj hq) haz

/-- Every client the factory returns has the fixed timeout and the shape
dictated by the dialect of the active provider. -/
theorem create_client_ok_shape_aux (cfg : AppConfig) :
    ∀ c, create_openai_client cfg = Except.ok c →
      c.timeoutOf = clientTimeoutSeconds
      ∧ clientTimeoutSeconds * 1000 = OPENAI_TIMEOUT_MS
      ∧ (∀ info, cfg.provider = some "azure" →
          alookup cfg.providers "azure" = some info →
          ∃ b, info.base_url = some b ∧
            c = OpenAIClient.azureClient b AZURE_OPENAI_API_VERSION info.api_key
                  clientTimeoutSeconds)
      ∧ (∀ p info, cfg.provider = some p → p ≠ "azure" →
          alookup cfg.providers p = some info →
          c = OpenAIClient.openaiClient info.api_key
                (if pyTruthy info.base_url then info.base_url else none)
                clientTimeoutSeconds) := by
  intro c hc
  rcases hprov : cfg.provider with _ | p
  · rw [create_err_no_provider cfg (by simp [hprov, pyTruthy])] at hc
    exact absurd hc (by simp)
  · by_cases hpe : p.isEmpty = true
    · rw [create_err_no_provider cfg (by simp [hprov, pyTruthy, hpe])] at hc
      exact absurd hc (by simp)
    · have hpt : pyTruthy (some p) = true := by simp [pyTruthy, hpe]
      rcases hl : alookup cfg.providers p with _ | info
      · rw [create_err_no_entry cfg p hprov hpt hl] at hc
        exact absurd hc (by simp)
      · by_cases hk : pyTruthy info.api_key = false ∧ p ≠ "ollama"
        · rw [create_err_no_key cfg p info hprov hpt hl hk] at hc
          exact absurd hc (by simp)
        · by_cases haz : p = "azure"
          · subst haz
            have hkt : pyTruthy info.api_key = true := by
              by_contra hx
              exact hk ⟨by simpa using hx, by decide⟩
            by_cases hb : pyTruthy info.base_url = true
            · rcases hbu : info.base_url with _ | b
              · rw [hbu] at hb
                simp [pyTruthy] at hb
              · have hbb : pyTruthy (some b) = true := by rw [← hbu]; exact hb
                rw [create_ok_azure cfg info b hprov hl hkt hbu hbb] at hc
                obtain rfl := Except.ok.inj hc
                refine ⟨timeoutOf_azure _ _ _ _, rfl, ?_, ?_⟩
                · intro info2 _ h2
                  rw [hl] at h2
                  obtain rfl := Option.some.inj h2
                  exact ⟨b, hbu, rfl⟩
                · intro q info2 hq hqa h2
                  obtain rfl := Option.some.inj hq
                  exact absurd rfl hqa
            · have hbf : pyTruthy info.base_url = false := by simpa using hb
              rw [create_err_azure_endpoint cfg info hprov hl hkt hbf] at hc
              exact absurd hc (by simp)
          · rw [create_ok_generic cfg p info hprov hpt hl hk haz] at hc
            obtain rfl := Except.ok.inj hc
            refine ⟨timeoutOf_openai _ _ _, rfl, ?_, ?_⟩
            · intro info2 hq h2
              exact absurd (Option.some.inj hq) haz
            · intro q info2 hq hqa h2
              obtain rfl := Option.some.inj hq
              rw [hl] at h2
              obtain rfl := Option.some.inj h2
              rfl

/-- C6: the factory fails exactly on the configurations described by
clientConfigError, and in every other case returns a client constructed
with the fixed timeout of 30000 milliseconds expressed in seconds; the
Azure dialect yields the dedicated client carrying the fixed protocol
version string and the resolved endpoint, every other provider yields the
generic client with the resolved endpoint passed explicitly exactly when
present. -/
theorem create_client_spec (cfg : AppConfig) :
    ((∃ e, create_openai_client cfg = Except.error e) ↔ clientConfigError cfg)
    ∧ (∀ c, create_openai_client cfg = Except.ok c →
        c.timeoutOf = clientTimeoutSeconds
        ∧ clientTimeoutSeconds * 1000 = OPENAI_TIMEOUT_MS
        ∧ (∀ info, cfg.provider = some "azure" →
            alookup cfg.providers "azure" = some info →
            ∃ b, info.base_url = some b ∧
              c = OpenAIClient.azureClient b AZURE_OPENAI_API_VERSION info.api_key
                    clientTimeoutSeconds)
        ∧ (∀ p info, cfg.provider = some p → p ≠ "azure" →
            alookup cfg.providers p = some info →
            c = OpenAIClient.openaiClient info.api_key
                  (if pyTruthy info.base_url then info.base_url else none)
                  clientTimeoutSeconds)) :=
  ⟨create_client_error_iff_aux cfg, create_client_ok_shape_aux cfg⟩

/-- A resolved configuration the factory accepts, used by the witness. -/
def richConfig : AppConfig :=
  AppConfig.mk "gpt-4" (some "openai") "auto" "inst"
    [("openai", ProviderInfo.mk "OpenAI" none none (some "sk-k"))] "openai" (some "sk-k")

/-! Helper lemmas about the registry merge of the configuration
resolver. -/

theorem alookup_eq_none_of_not_mem {α : Type} :
    ∀ (m : List (String × α)) (p : String), p ∉ m.map Prod.fst → alookup m p = none
  | [], _, _ => rfl
  | (k, v) :: rest, p, h => by
    have hk : ¬k = p := by
      intro hkp
      exact h (by simp [hkp])
    have hrest : p ∉ rest.map Prod.fst := by
      intro hmem
      exact h (by simp [hmem])
    simp only [alookup, if_neg hk]
    exact alookup_eq_none_of_not_mem rest p hrest

theorem alookup_mergeStep_ne (acc : List (String × RawProvider))
    (nd : String × ProviderInfo) (p : String) (h : p ≠ nd.1) :
    alookup (mergeStep acc nd) p = alookup acc p := by
  rcases h0 : alookup acc nd.1 with _ | fe
  · simp only [mergeStep, h0]
    exact alookup_aupsert_ne acc nd.1 p (dumpProvider nd.2) h
  · simp only [mergeStep, h0]
    exact alookup_aupsert_ne acc nd.1 p (backfill fe (dumpProvider nd.2)) h

theorem alookup_mergeStep_self (acc : List (String × RawProvider))
    (nd : String × ProviderInfo) :
    alookup (mergeStep acc nd) nd.1 =
      some (match alookup acc nd.1 with
            | none => dumpProvider nd.2
            | some fe => backfill fe (dumpProvider nd.2)) := by
  rcases h0 : alookup acc nd.1 with _ | fe
  · simp only [mergeStep, h0]
    exact alookup_aupsert_self acc nd.1 (dumpProvider nd.2)
  · simp only [mergeStep, h0]
    exact alookup_aupsert_self acc nd.1 (backfill fe (dumpProvider nd.2))

theorem alookup_foldl_mergeStep :
    ∀ (ds : List (String × ProviderInfo)) (acc : List (String × RawProvider)) (p : String),
      (ds.map Prod.fst).Nodup →
      alookup (List.foldl mergeStep acc ds) p =
        match alookup ds p with
        | some d => some (match alookup acc p with
                          | none => dumpProvider d
                          | some fe => backfill fe (dumpProvider d))
        | none => alookup acc p
  | [], acc, p, _ => by simp [alookup]
  | (k, d) :: rest, acc, p, hnd => by
    rw [List.map_cons] at hnd
    have hknotin : k ∉ rest.map Prod.fst := (List.nodup_cons.mp hnd).1
    have hnd2 : (rest.map Prod.fst).Nodup := (List.nodup_cons.mp hnd).2
    rw [List.foldl_cons, alookup_foldl_mergeStep rest (mergeStep acc (k, d)) p hnd2]
    by_cases hp : k = p
    · subst hp
      rw [alookup_eq_none_of_not_mem rest k hknotin]
      simp only [alookup, if_pos rfl]
      exact alookup_mergeStep_self acc (k, d)
    · have h1 : alookup (mergeStep acc (k, d)) p = alookup acc p :=
        alookup_mergeStep_ne acc (k, d) p (fun hh => hp hh.symm)
      simp only [alookup, if_neg hp]
      rcases h2 : alookup rest p with _ | d2
      · simp only [h2, h1]
      · simp only [h2, h1]

theorem defaults_keys (env : Env) :
    (DEFAULT_PROVIDERS env).map Prod.fst =
      ["openai", "azure", "ollama", "anthropic", "google", "mistral"] := by
  rcases henv : env "OLLAMA_BASE_URL" with _ | v
  · simp only [DEFAULT_PROVIDERS, henv]
    rfl
  · simp only [DEFAULT_PROVIDERS, henv]
    by_cases hv : v.isEmpty = true
    · rw [if_pos hv]
      rfl
    · rw [if_neg hv]
      have hmap : ∀ (l : List (String × ProviderInfo)),
          (l.map (fun e =>
            if e.1 = "ollama" then
              (e.1, ProviderInfo.mk e.2.name (some v) e.2.env_key e.2.api_key)
            else e)).map Prod.fst = l.map Prod.fst := by
        intro l
        induction l with
        | nil => rfl
        | cons a t ih =>
          simp only [List.map_cons]
          rw [ih]
          congr 1
          split <;> rfl
      rw [hmap]
      rfl

theorem defaults_keys_nodup (env : Env) :
    ((DEFAULT_PROVIDERS env).map Prod.fst).Nodup := by
  rw [defaults_keys]
  decide

/-- Lookup in the merged provider section: registry entries absent from
the file are injected as dumps, present ones are backfilled field by
field, and non-registry file entries pass through untouched. -/
theorem merged_lookup (env : Env) (fileProvs : List (String × RawProvider)) (p : String) :
    alookup (mergeDefaultProviders env fileProvs) p =
      match alookup (DEFAULT_PROVIDERS env) p with
      | some d => some (match alookup fileProvs p with
                        | none => dumpProvider d
                        | some fe => backfill fe (dumpProvider d))
      | none => alookup fileProvs p :=
  alookup_foldl_mergeStep (DEFAULT_PROVIDERS env) fileProvs p (defaults_keys_nodup env)

/-! Helper lemmas for the success of resolution. -/

theorem mem_aupsert {α : Type} :
    ∀ (m : List (String × α)) (k : String) (v : α) (x : String × α),
      x ∈ aupsert m k v → x ∈ m ∨ x = (k, v)
  | [], k, v, x, h => Or.inr (by simpa [aupsert] using h)
  | (k0, v0) :: rest, k, v, x, h => by
    by_cases h0 : k0 = k
    · simp only [aupsert, if_pos h0] at h
      rcases List.mem_cons.mp h with h1 | h1
      · exact Or.inr h1
      · exact Or.inl (List.mem_cons_of_mem _ h1)
    · simp only [aupsert, if_neg h0] at h
      rcases List.mem_cons.mp h with h1 | h1
      · exact Or.inl (h1 ▸ List.mem_cons_self _ _)
      · rcases mem_aupsert rest k v x h1 with h2 | h2
        · exact Or.inl (List.mem_cons_of_mem _ h2)
        · exact Or.inr h2

/-- Every entry of a raw provider mapping carries a name. -/
def namesPresent (l : List (String × RawProvider)) : Prop :=
  ∀ x ∈ l, (x.2).name.isSome = true

theorem namesPresent_mergeStep (acc : List (String × RawProvider))
    (nd : String × ProviderInfo) (h : namesPresent acc) :
    namesPresent (mergeStep acc nd) := by
  intro x hx
  rcases h0 : alookup acc nd.1 with _ | fe
  · simp only [mergeStep, h0] at hx
    rcases mem_aupsert acc nd.1 (dumpProvider nd.2) x hx with h1 | h1
    · exact h x h1
    · rw [h1]
      rfl
  · simp only [mergeStep, h0] at hx
    rcases mem_aupsert acc nd.1 (backfill fe (dumpProvider nd.2)) x hx with h1 | h1
    · exact h x h1
    · rw [h1]
      cases hfe : fe.name <;> simp [backfill, mergeField, hfe, dumpProvider]

theorem namesPresent_foldl :
    ∀ (ds : List (String × ProviderInfo)) (acc : List (String × RawProvider)),
      namesPresent acc → namesPresent (List.foldl mergeStep acc ds)
  | [], _, h => h
  | nd :: rest, acc, h => namesPresent_foldl rest _ (namesPresent_mergeStep acc nd h)

theorem applyEnvToProviders_ok (env : Env) (defs : List (String × ProviderInfo)) :
    ∀ l, namesPresent l →
      ∃ out, applyEnvToProviders env defs l = Except.ok out ∧ namesPresent out
  | [], _ => ⟨[], rfl, by intro x hx; simp at hx⟩
  | (n, d) :: rest, h => by
    rcases hnm : d.name with _ | nm
    · have hd := h (n, d) (List.mem_cons_self _ _)
      rw [hnm] at hd
      simp at hd
    · obtain ⟨out, hout, hnp⟩ :=
        applyEnvToProviders_ok env defs rest (fun x hx => h x (List.mem_cons_of_mem _ hx))
      refine ⟨(n, RawProvider.mk (some nm) (envBaseUrl env defs n d) d.env_key
        (envApiKey env d)) :: out, ?_, ?_⟩
      · simp only [applyEnvToProviders, applyEnvToProvider, hnm, hout]
      · intro x hx
        rcases List.mem_cons.mp hx with h1 | h1
        · rw [h1]
          rfl
        · exact hnp x h1

theorem toProviderInfos_ok :
    ∀ l, namesPresent l → ∃ out, toProviderInfos l = Except.ok out
  | [], _ => ⟨[], rfl⟩
  | (n, r) :: rest, h => by
    rcases hnm : r.name with _ | nm
    · have hd := h (n, r) (List.mem_cons_self _ _)
      rw [hnm] at hd
      simp at hd
    · obtain ⟨out, hout⟩ :=
        toProviderInfos_ok rest (fun x hx => h x (List.mem_cons_of_mem _ hx))
      exact ⟨(n, ProviderInfo.mk nm r.base_url r.env_key r.api_key) :: out,
        by simp only [toProviderInfos, hnm, hout]⟩

/-- Resolution of the empty raw mapping succeeds for every environment and
produces the hard-coded top-level fallbacks. -/
theorem resolveConfig_emptyRaw_ok (env : Env) :
    ∃ provs key, resolveConfig env emptyRawConfig =
      Except.ok (AppConfig.mk DEFAULT_MODEL none DEFAULT_APPROVAL_MODE
        DEFAULT_INSTRUCTIONS provs DEFAULT_PROVIDER key) := by
  have hnp : namesPresent (mergeDefaultProviders env (fileProviders emptyRawConfig)) := by
    apply namesPresent_foldl
    intro x hx
    simp [fileProviders, emptyRawConfig] at hx
  obtain ⟨envApplied, hE, hnp2⟩ :=
    applyEnvToProviders_ok env (DEFAULT_PROVIDERS env) _ hnp
  obtain ⟨provs, hT⟩ := toProviderInfos_ok envApplied hnp2
  refine ⟨provs, ?_, ?_⟩
  · exact match alookup envApplied DEFAULT_PROVIDER with
      | some d => d.api_key
      | none => none
  · simp only [resolveConfig, hE, hT]
    simp [scalarOr, emptyRawConfig, DEFAULT_APPROVAL_MODE]

/-! Lookup tracking through environment application and final
validation. -/

theorem applyEnvToProviders_lookup (env : Env) (defs : List (String × ProviderInfo)) :
    ∀ (l out : List (String × RawProvider)),
      applyEnvToProviders env defs l = Except.ok out → ∀ p,
      match alookup l p with
      | some d =>
          alookup out p = some (RawProvider.mk d.name (envBaseUrl env defs p d)
            d.env_key (envApiKey env d)) ∧ d.name.isSome = true
      | none => alookup out p = none
  | [], out, h, p => by
    simp only [applyEnvToProviders] at h
    obtain rfl := Except.ok.inj h
    simp [alookup]
  | (n, d) :: tl, out, h, p => by
    simp only [applyEnvToProviders] at h
    rcases hA : applyEnvToProvider env defs n d with e | d1
    · rw [hA] at h
      exact absurd h (by simp)
    · rw [hA] at h
      rcases hR : applyEnvToProviders env defs tl with e | rest1
      · rw [hR] at h
        exact absurd h (by simp)
      · rw [hR] at h
        obtain rfl := Except.ok.inj h
        by_cases hp : n = p
        · subst hp
          rcases hnm : d.name with _ | nm
          · simp only [applyEnvToProvider, hnm] at hA
            exact absurd hA (by simp)
          · simp only [applyEnvToProvider, hnm] at hA
            obtain rfl := Except.ok.inj hA
            have hsc : alookup ((n, d) :: tl) n = some d := by simp [alookup]
            rw [hsc]
            constructor
            · simp [alookup, hnm]
            · simp [hnm]
        · simp only [alookup, if_neg hp]
          exact applyEnvToProviders_lookup env defs tl rest1 hR p

theorem toProviderInfos_lookup :
    ∀ (l : List (String × RawProvider)) (out : List (String × ProviderInfo)),
      toProviderInfos l = Except.ok out → ∀ p,
      match alookup l p with
      | some r => ∃ nm, r.name = some nm ∧
          alookup out p = some (ProviderInfo.mk nm r.base_url r.env_key r.api_key)
      | none => alookup out p = none
  | [], out, h, p => by
    simp only [toProviderInfos] at h
    obtain rfl := Except.ok.inj h
    simp [alookup]
  | (n, r) :: tl, out, h, p => by
    simp only [toProviderInfos] at h
    rcases hnm : r.name with _ | nm
    · rw [hnm] at h
      exact absurd h (by simp)
    · rw [hnm] at h
      rcases hR : toProviderInfos tl with e | rest1
      · rw [hR] at h
        exact absurd h (by simp)
      · rw [hR] at h
        obtain rfl := Except.ok.inj h
        by_cases hp : n = p
        · subst hp
          simp only [alookup, if_pos rfl]
          exact ⟨nm, hnm, rfl⟩
        · simp only [alookup, if_neg hp]
          exact toProviderInfos_lookup tl rest1 hR p

/-- Deconstruction of a successful resolution into its pipeline stages. -/
theorem resolveConfig_inv (env : Env) (raw : RawConfig) (cfg : AppConfig)
    (h : resolveConfig env raw = Except.ok cfg) :
    ∃ envApplied provs,
      applyEnvToProviders env (DEFAULT_PROVIDERS env)
        (mergeDefaultProviders env (fileProviders raw)) = Except.ok envApplied
      ∧ toProviderInfos envApplied = Except.ok provs
      ∧ cfg.providers = provs := by
  simp only [resolveConfig] at h
  rcases hE : applyEnvToProviders env (DEFAULT_PROVIDERS env)
      (mergeDefaultProviders env (fileProviders raw)) with e | envApplied
  · simp only [hE] at h
    exact absurd h (by simp)
  · simp only [hE] at h
    by_cases hA : scalarOr raw.approvalMode DEFAULT_APPROVAL_MODE = "auto" ∨
        scalarOr raw.approvalMode DEFAULT_APPROVAL_MODE = "manual" ∨
        scalarOr raw.approvalMode DEFAULT_APPROVAL_MODE = "none"
    · rw [if_pos hA] at h
      rcases hT : toProviderInfos envApplied with e | provs
      · simp only [hT] at h
        exact absurd h (by simp)
      · simp only [hT] at h
        refine ⟨envApplied, provs, rfl, hT, ?_⟩
        have h2 := Except.ok.inj h
        rw [← h2]
    · rw [if_neg hA] at h
      exact absurd h (by simp)

/-! Silence conditions for the environment overrides, and how the
environment application behaves under and against them. -/

/-- The credential environment variable of an entry provides no override:
there is no variable name, or the name is empty, or the variable is unset
or empty in the process environment. -/
def credEnvSilent (env : Env) : Option String → Prop
  | none => True
  | some ek => ek.isEmpty = true ∨ pyTruthy (env ek) = false

/-- The provider-specific base endpoint variable provides no override. -/
def baseUrlEnvSilent (env : Env) (p : String) : Prop :=
  pyTruthy (env (strUpper p ++ "_BASE_URL")) = false

theorem envApiKey_env_set (env : Env) (d : RawProvider) (ek v : String)
    (hek : d.env_key = some ek) (hekne : ek.isEmpty = false)
    (henv : env ek = some v) (hvne : v.isEmpty = false) :
    envApiKey env d = some v := by
  simp [envApiKey, hek, hekne, henv, hvne]

theorem envApiKey_silent (env : Env) (d : RawProvider)
    (h : credEnvSilent env d.env_key) :
    envApiKey env d = d.api_key := by
  rcases hek : d.env_key with _ | ek
  · simp [envApiKey, hek]
  · rw [hek] at h
    simp only [credEnvSilent] at h
    rcases h with h1 | h1
    · simp [envApiKey, hek, h1]
    · rcases hv : env ek with _ | v
      · simp [envApiKey, hek, hv]
      · rw [hv] at h1
        have hve : v.isEmpty = true := by simpa [pyTruthy] using h1
        by_cases he : ek.isEmpty = true
        · simp [envApiKey, hek, he]
        · simp [envApiKey, hek, he, hv, hve]

theorem envBaseUrl_silent (env : Env) (defaults : List (String × ProviderInfo))
    (p : String) (d : RawProvider) (h : baseUrlEnvSilent env p) :
    envBaseUrl env defaults p d =
      match d.base_url with
      | some b => some b
      | none =>
        match alookup defaults p with
        | some q => q.base_url
        | none => none := by
  have h0 : pyTruthy (env (strUpper p ++ "_BASE_URL")) = false := h
  have h1 : ¬pyTruthy (env (strUpper p ++ "_BASE_URL")) = true := by simp [h0]
  by_cases hp : p = "ollama"
  · subst hp
    have h2 : pyTruthy (env "OLLAMA_BASE_URL") = false := by
      have heq : (strUpper "ollama" ++ "_BASE_URL") = "OLLAMA_BASE_URL" := by decide
      rw [← heq]
      exact h0
    simp only [envBaseUrl, if_neg h1]
    rw [if_neg ?hc]
    case hc =>
      intro hx
      rw [h2] at hx
      exact absurd hx.2 (by simp)
  · simp only [envBaseUrl, if_neg h1]
    rw [if_neg ?hc]
    case hc =>
      intro hx
      exact hp hx.1

/-! C4. Configuration precedence: environment wins over file, file wins
over registry default field by field, missing fields and entries are
backfilled from the registry. -/

/-- C4: for every provider entry of a configuration resolved by
load_config, (1) when the entry names a credential environment variable
that is set and nonempty, the resolved credential is the environment
value; (2) when that variable is silent and the settings file supplies a
credential for the provider, the resolved credential is the file value;
(3) when both the registry and the file know the provider, display name
and credential variable name are taken from the file when present there
and from the registry otherwise, and so is the base endpoint when its
environment override is silent; (4) when the registry knows the provider
but the file does not, all fields come from the injected registry entry,
the credential and endpoint again provided their environment overrides are
silent. -/
theorem config_credential_precedence (env : Env) (fs : ConfigDir) (cfg : AppConfig)
    (p : String) (e : ProviderInfo)
    (hcfg : load_config env fs = Except.ok cfg)
    (he : alookup cfg.providers p = some e) :
    (∀ ek v, e.env_key = some ek → ek.isEmpty = false → env ek = some v →
      v.isEmpty = false → e.api_key = some v)
    ∧ (∀ fe fv, alookup (fileProviders (effectiveRaw env fs)) p = some fe →
        fe.api_key = some fv → credEnvSilent env e.env_key → e.api_key = some fv)
    ∧ (∀ d fe, alookup (DEFAULT_PROVIDERS env) p = some d →
        alookup (fileProviders (effectiveRaw env fs)) p = some fe →
        e.name = (match fe.name with | some nm => nm | none => d.name)
        ∧ e.env_key = mergeField fe.env_key d.env_key
        ∧ (baseUrlEnvSilent env p → e.base_url = mergeField fe.base_url d.base_url))
    ∧ (∀ d, alookup (DEFAULT_PROVIDERS env) p = some d →
        alookup (fileProviders (effectiveRaw env fs)) p = none →
        e.name = d.name ∧ e.env_key = d.env_key
        ∧ (credEnvSilent env e.env_key → e.api_key = d.api_key)
        ∧ (baseUrlEnvSilent env p → e.base_url = d.base_url)) := by
  unfold load_config at hcfg
  obtain ⟨envApplied, provs, hE, hT, hP⟩ :=
    resolveConfig_inv env (effectiveRaw env fs) cfg hcfg
  rw [hP] at he
  have hTl := toProviderInfos_lookup envApplied provs hT p
  rcases hEA : alookup envApplied p with _ | r
  · rw [hEA] at hTl
    rw [hTl] at he
    exact absurd he (by simp)
  · rw [hEA] at hTl
    obtain ⟨nm, hnm, hout⟩ := hTl
    rw [hout] at he
    obtain rfl := Option.some.inj he
    have hAl := applyEnvToProviders_lookup env (DEFAULT_PROVIDERS env) _ envApplied hE p
    rcases hM : alookup (mergeDefaultProviders env (fileProviders (effectiveRaw env fs)))
        p with _ | d0
    · rw [hM] at hAl
      exact absurd (hAl.symm.trans hEA) (by simp)
    · rw [hM] at hAl
      obtain ⟨hre, hdn⟩ := hAl
      obtain rfl := Option.some.inj (hre.symm.trans hEA)
      have hd0nm : d0.name = some nm := hnm
      have hMerged := merged_lookup env (fileProviders (effectiveRaw env fs)) p
      rw [hM] at hMerged
      refine ⟨?_, ?_, ?_, ?_⟩
      · intro ek v hek hekne henv hvne
        exact envApiKey_env_set env d0 ek v hek hekne henv hvne
      · intro fe fv hfe hfv hsilent
        have hk := envApiKey_silent env d0 hsilent
        rcases hD : alookup (DEFAULT_PROVIDERS env) p with _ | d
        · rw [hD, hfe] at hMerged
          obtain rfl := Option.some.inj hMerged
          exact hk.trans hfv
        · rw [hD, hfe] at hMerged
          have heq := Option.some.inj hMerged
          have h3 : d0.api_key = some fv := by
            rw [heq]
            simp [backfill, mergeField, hfv, dumpProvider]
          exact hk.trans h3
      · intro d fe hD hfe
        rw [hD, hfe] at hMerged
        have heq := Option.some.inj hMerged
        refine ⟨?_, ?_, ?_⟩
        · rw [heq] at hd0nm
          simp only [backfill, mergeField, dumpProvider] at hd0nm
          rcases hfn : fe.name with _ | nm2
          · rw [hfn] at hd0nm
            simp at hd0nm
            simp [hfn]
            exact hd0nm.symm
          · rw [hfn] at hd0nm
            simp at hd0nm
            simp [hfn]
            exact hd0nm.symm
        · show d0.env_key = mergeField fe.env_key d.env_key
          rw [heq]
          rfl
        · intro hsil
          have hB := envBaseUrl_silent env (DEFAULT_PROVIDERS env) p d0 hsil
          show envBaseUrl env (DEFAULT_PROVIDERS env) p d0 = mergeField fe.base_url d.base_url
          rw [hB, heq]
          rcases hfb : fe.base_url with _ | b
          · rcases hdb : d.base_url with _ | b2
            · simp [backfill, mergeField, dumpProvider, hfb, hdb, hD]
            · simp [backfill, mergeField, dumpProvider, hfb, hdb]
          · simp [backfill, mergeField, dumpProvider, hfb]
      · intro d hD hfe
        rw [hD, hfe] at hMerged
        have heq := Option.some.inj hMerged
        refine ⟨?_, ?_, ?_, ?_⟩
        · rw [heq] at hd0nm
          simp [dumpProvider] at hd0nm
          exact hd0nm.symm
        · show d0.env_key = d.env_key
          rw [heq]
          rfl
        · intro hsil
          have hk := envApiKey_silent env d0 hsil
          refine hk.trans ?_
          rw [heq]
          rfl
        · intro hsil
          have hB := envBaseUrl_silent env (DEFAULT_PROVIDERS env) p d0 hsil
          show envBaseUrl env (DEFAULT_PROVIDERS env) p d0 = d.base_url
          rw [hB, heq]
          rcases hdb : d.base_url with _ | b
          · simp [dumpProvider, hdb, hD]
          · simp [dumpProvider, hdb]

/-- A settings file supplying one credential for the openai provider,
used by the witness. -/
def rawSample : RawConfig :=
  RawConfig.mk none none none none
    (some [("openai", RawProvider.mk none none none (some "sk-file"))]) none

/-- A settings directory holding the sample file in the json format. -/
def fsSample : ConfigDir := ConfigDir.mk (some (some rawSample)) none

/-- An environment setting only the openai credential variable. -/
def envSample : Env := fun k => if k = "OPENAI_API_KEY" then some "sk-env" else none

/-- The empty environment. -/
def envNone : Env := fun _ => none

/-- The configuration resolved from the sample file under envSample. -/
def cfgEnvSample : AppConfig :=
  AppConfig.mk "gpt-4" none "auto" DEFAULT_INSTRUCTIONS
    [("openai", ProviderInfo.mk "OpenAI" (some "https://api.openai.com/v1")
        (some "OPENAI_API_KEY") (some "sk-env")),
     ("azure", ProviderInfo.mk "Azure OpenAI" none (some "AZURE_OPENAI_API_KEY") none),
     ("ollama", ProviderInfo.mk "Ollama" (some "http://localhost:11434") none none),
     ("anthropic", ProviderInfo.mk "Anthropic" (some "https://api.anthropic.com/v1")
        (some "ANTHROPIC_API_KEY") none),
     ("google", ProviderInfo.mk "Google" none (some "GOOGLE_API_KEY") none),
     ("mistral", ProviderInfo.mk "Mistral AI" (some "https://api.mistral.ai/v1")
        (some "MISTRAL_API_KEY") none)]
    "openai" (some "sk-env")

/-- The configuration resolved from the sample file under the empty
environment. -/
def cfgFileSample : AppConfig :=
  AppConfig.mk "gpt-4" none "auto" DEFAULT_INSTRUCTIONS
    [("openai", ProviderInfo.mk "OpenAI" (some "https://api.openai.com/v1")
        (some "OPENAI_API_KEY") (some "sk-file")),
     ("azure", ProviderInfo.mk "Azure OpenAI" none (some "AZURE_OPENAI_API_KEY") none),
     ("ollama", ProviderInfo.mk "Ollama" (some "http://localhost:11434") none none),
     ("anthropic", ProviderInfo.mk "Anthropic" (some "https://api.anthropic.com/v1")
        (some "ANTHROPIC_API_KEY") none),
     ("google", ProviderInfo.mk "Google" none (some "GOOGLE_API_KEY") none),
     ("mistral", ProviderInfo.mk "Mistral AI" (some "https://api.mistral.ai/v1")
        (some "MISTRAL_API_KEY") none)]
    "openai" (some "sk-file")

theorem config_credential_precedence_witness :
    (ProviderInfo.mk "OpenAI" (some "https://api.openai.com/v1")
      (some "OPENAI_API_KEY") (some "sk-env")).api_key = some "sk-env"
    ∧ (ProviderInfo.mk "OpenAI" (some "https://api.openai.com/v1")
      (some "OPENAI_API_KEY") (some "sk-file")).api_key = some "sk-file" :=
  ⟨(config_credential_precedence envSample fsSample cfgEnvSample "openai"
      (ProviderInfo.mk "OpenAI" (some "https://api.openai.com/v1")
        (some "OPENAI_API_KEY") (some "sk-env")) rfl rfl).1
      "OPENAI_API_KEY" "sk-env" rfl rfl rfl rfl,
   (config_credential_precedence envNone fsSample cfgFileSample "openai"
      (ProviderInfo.mk "OpenAI" (some "https://api.openai.com/v1")
        (some "OPENAI_API_KEY") (some "sk-file")) rfl rfl).2.1
      (RawProvider.mk none none none (some "sk-file")) "sk-file" rfl rfl (Or.inr rfl)⟩

/-! C7. Malformed settings files are swallowed. -/

theorem effectiveRaw_of_malformed (env : Env) (fs : ConfigDir)
    (h : chosenParse fs = some none) : effectiveRaw env fs = emptyRawConfig := by
  obtain ⟨j, y⟩ := fs
  rcases j with _ | pj
  · rcases y with _ | py
    · simp [chosenParse, getConfigFilepath] at h
    · rcases py with _ | r
      · simp [effectiveRaw, bootstrapDefaultConfigFile, getConfigFilepath]
      · simp [chosenParse, getConfigFilepath] at h
  · rcases pj with _ | r
    · simp [effectiveRaw, bootstrapDefaultConfigFile, getConfigFilepath]
    · simp [chosenParse, getConfigFilepath] at h

/-- C7: whenever the settings file that load_config reads is malformed
(parses to nothing), resolution proceeds on the empty raw mapping instead
of failing: the result is exactly the resolution of the empty mapping, it
is a success for every environment, and the returned configuration carries
the hard-coded fallbacks for the top-level scalars while the provider
mapping comes from the registry merged with environment overrides. -/
theorem load_config_swallows_malformed_file (env : Env) (fs : ConfigDir)
    (hmal : chosenParse fs = some none) :
    load_config env fs = resolveConfig env emptyRawConfig
    ∧ ∃ cfg, load_config env fs = Except.ok cfg
        ∧ cfg.model = DEFAULT_MODEL
        ∧ cfg.approvalMode = DEFAULT_APPROVAL_MODE
        ∧ cfg.instructions = DEFAULT_INSTRUCTIONS
        ∧ cfg.default_provider = DEFAULT_PROVIDER := by
  have heq : load_config env fs = resolveConfig env emptyRawConfig := by
    unfold load_config
    rw [effectiveRaw_of_malformed env fs hmal]
  obtain ⟨provs, key, hok⟩ := resolveConfig_emptyRaw_ok env
  exact ⟨heq,
    AppConfig.mk DEFAULT_MODEL none DEFAULT_APPROVAL_MODE DEFAULT_INSTRUCTIONS provs
      DEFAULT_PROVIDER key,
    by rw [heq, hok], rfl, rfl, rfl, rfl⟩

theorem load_config_swallows_malformed_file_witness :
    load_config (fun _ => none) (ConfigDir.mk (some none) none) =
      resolveConfig (fun _ => none) emptyRawConfig
    ∧ ∃ cfg, load_config (fun _ => none) (ConfigDir.mk (some none) none) = Except.ok cfg
        ∧ cfg.model = DEFAULT_MODEL
        ∧ cfg.approvalMode = DEFAULT_APPROVAL_MODE
        ∧ cfg.instructions = DEFAULT_INSTRUCTIONS
        ∧ cfg.default_provider = DEFAULT_PROVIDER :=
  load_config_swallows_malformed_file (fun _ => none) (ConfigDir.mk (some none) none) rfl

theorem create_client_spec_witness :
    (OpenAIClient.openaiClient (some "sk-k") none clientTimeoutSeconds).timeoutOf =
      clientTimeoutSeconds
    ∧ OpenAIClient.openaiClient (some "sk-k") none clientTimeoutSeconds =
      OpenAIClient.openaiClient
        ((ProviderInfo.mk "OpenAI" none none (some "sk-k")).api_key)
        (if pyTruthy ((ProviderInfo.mk "OpenAI" none none (some "sk-k")).base_url)
         then (ProviderInfo.mk "OpenAI" none none (some "sk-k")).base_url else none)
        clientTimeoutSeconds :=
  ⟨((create_client_spec richConfig).2
      (OpenAIClient.openaiClient (some "sk-k") none clientTimeoutSeconds) rfl).1,
   ((create_client_spec richConfig).2
      (OpenAIClient.openaiClient (some "sk-k") none clientTimeoutSeconds) rfl).2.2.2
     "openai" (ProviderInfo.mk "OpenAI" none none (some "sk-k")) rfl
     (by decide) rfl⟩

end Codex
